import Mathlib

/-!
Shallow embedding of the connection-configuration and path-discovery layer of
rancher-desktop (rdctl): src/go/rdctl/pkg/config/config.go, the TypeScript
paths module, and the rdctl utils DevMode probe.

External effects (file reads, environment variables, directory listings,
lstat results, subprocess output) are passed in explicitly through
environment records; each Go/TS function is translated to a pure Lean
function over them.
-/

namespace RancherDesktop

/-! ### config.go : data model -/

/-- CLIConfig (config.go:38-42): the json data read from the config file.
json.Unmarshal leaves missing keys at their zero values, so a key absent
from the file shows up here as the empty string or the integer zero. -/
structure CLIConfig where
  user : String
  password : String
  port : Int
  deriving Repr, DecidableEq

/-- ConnectionInfo (config.go:45-50): the parameters needed to connect to an
HTTP server. The global connectionSettings variable has this shape; its
initial value holds the user-supplied override flags. -/
structure ConnectionInfo where
  user : String
  password : String
  host : String
  port : String
  deriving Repr, DecidableEq

/-- Outcome classification of os.ReadFile at a path: a not-exist error
(errors.Is(err, os.ErrNotExist) / fs.ErrNotExist) or any other read error. -/
inductive ReadErr where
  | notExist
  | other
  deriving Repr, DecidableEq

/-- What json.Unmarshal does with the bytes read from an existing file: the
content is abstracted by its parse outcome, either malformed JSON or a
decoded CLIConfig. -/
inductive ParseOutcome where
  | malformed
  | parsed (settings : CLIConfig)
  deriving Repr, DecidableEq

/-- Result of os.ReadFile at a path, with content abstracted by its
json.Unmarshal outcome. -/
inductive ReadResult where
  | err (e : ReadErr)
  | ok (content : ParseOutcome)
  deriving Repr, DecidableEq

/-- The error values GetConnectionInfo can surface.
mainProcessNotRunning embeds ErrMainProcessNotRunning (config.go:60);
readFile embeds the error returned by os.ReadFile, a fs.PathError carrying
the path (config.go:180-185); configParse embeds the wrapped unmarshal
error, which also carries the path (config.go:190). -/
inductive ResolveError where
  | mainProcessNotRunning
  | readFile (path : String) (e : ReadErr)
  | configParse (path : String)
  deriving Repr, DecidableEq

/-- ErrMainProcessNotRunning (config.go:60). -/
def ErrMainProcessNotRunning : ResolveError := ResolveError.mainProcessNotRunning

/-- The process-wide inputs GetConnectionInfo reads: the --config-path flag
(empty when not given), DefaultConfigPath, the override flags preloaded
into connectionSettings (config.go:80-83), and the filesystem as seen by
os.ReadFile plus json.Unmarshal. -/
structure ConfigEnv where
  configPathFlag : String
  defaultConfigPath : String
  overrides : ConnectionInfo
  fs : String → ReadResult

/-- strconv.Itoa on the Go int decoded from the file (config.go:200). -/
def itoa (i : Int) : String := toString i

/-- config.go:174-176: if configPath is empty it is set to
DefaultConfigPath, fixing the path that is read and compared below. -/
def resolvedConfigPath (env : ConfigEnv) : String :=
  if env.configPathFlag = "" then env.defaultConfigPath else env.configPathFlag

/-- config.go:177-179: default the Host field to 127.0.0.1 when unset. -/
def hostDefaulted (cs : ConnectionInfo) : ConnectionInfo :=
  if cs.host = "" then { cs with host := "127.0.0.1" } else cs

/-- config.go:193-201: for each of User, Password, Port, copy the value
decoded from the file when the corresponding field is still empty.
The Port copy is unconditional on the decoded value: strconv.Itoa is
applied even when settings.Port is zero. -/
def mergeFile (cs : ConnectionInfo) (settings : CLIConfig) : ConnectionInfo :=
  let cs1 := if cs.user = "" then { cs with user := settings.user } else cs
  let cs2 := if cs1.password = "" then { cs1 with password := settings.password } else cs1
  if cs2.port = "" then { cs2 with port := itoa settings.port } else cs2

/-- insufficientConnectionInfo (config.go:205-207). -/
def insufficientConnectionInfo (cs : ConnectionInfo) : Bool :=
  cs.port == "" || cs.user == "" || cs.password == ""

/-- finishConnectionSettings (config.go:173-203). Returns the value of the
connectionSettings global after the call, the isImmediateError flag, and
the error if any. On a read error the flag is configPath != DefaultConfigPath
(config.go:185); the same flag is returned on an unmarshal error
(config.go:190). -/
def finishConnectionSettings (env : ConfigEnv) :
    ConnectionInfo × Bool × Option ResolveError :=
  match env.fs (resolvedConfigPath env) with
  | ReadResult.err e =>
      (hostDefaulted env.overrides,
       resolvedConfigPath env != env.defaultConfigPath,
       some (ResolveError.readFile (resolvedConfigPath env) e))
  | ReadResult.ok ParseOutcome.malformed =>
      (hostDefaulted env.overrides,
       resolvedConfigPath env != env.defaultConfigPath,
       some (ResolveError.configParse (resolvedConfigPath env)))
  | ReadResult.ok (ParseOutcome.parsed settings) =>
      (mergeFile (hostDefaulted env.overrides) settings, false, none)

/-- GetConnectionInfo (config.go:165-171): return the error only when it is
immediate or the merged settings are insufficient; otherwise return the
connectionSettings global as left by finishConnectionSettings. -/
def GetConnectionInfo (env : ConfigEnv) : Except ResolveError ConnectionInfo :=
  match finishConnectionSettings env with
  | (cs, isImmediateError, some err) =>
      if isImmediateError || insufficientConnectionInfo cs then Except.error err
      else Except.ok cs
  | (cs, _, none) => Except.ok cs

/-! ### config.go : helper lemmas -/

theorem hostDefaulted_user (cs : ConnectionInfo) :
    (hostDefaulted cs).user = cs.user := by
  unfold hostDefaulted; split <;> rfl

theorem hostDefaulted_password (cs : ConnectionInfo) :
    (hostDefaulted cs).password = cs.password := by
  unfold hostDefaulted; split <;> rfl

theorem hostDefaulted_port (cs : ConnectionInfo) :
    (hostDefaulted cs).port = cs.port := by
  unfold hostDefaulted; split <;> rfl

theorem hostDefaulted_host (cs : ConnectionInfo) :
    (hostDefaulted cs).host = if cs.host = "" then "127.0.0.1" else cs.host := by
  unfold hostDefaulted; split <;> simp_all

theorem insufficient_hostDefaulted (cs : ConnectionInfo) :
    insufficientConnectionInfo (hostDefaulted cs) = insufficientConnectionInfo cs := by
  unfold insufficientConnectionInfo hostDefaulted; split <;> rfl

theorem mergeFile_eq (cs : ConnectionInfo) (s : CLIConfig) :
    mergeFile cs s =
      { user := if cs.user = "" then s.user else cs.user
        password := if cs.password = "" then s.password else cs.password
        host := cs.host
        port := if cs.port = "" then itoa s.port else cs.port } := by
  unfold mergeFile
  by_cases h1 : cs.user = "" <;> by_cases h2 : cs.password = "" <;>
    by_cases h3 : cs.port = "" <;> simp [h1, h2, h3]

theorem getConnectionInfo_err (env : ConfigEnv) (e : ReadErr)
    (hfs : env.fs (resolvedConfigPath env) = ReadResult.err e) :
    GetConnectionInfo env =
      if (resolvedConfigPath env != env.defaultConfigPath)
          || insufficientConnectionInfo (hostDefaulted env.overrides)
      then Except.error (ResolveError.readFile (resolvedConfigPath env) e)
      else Except.ok (hostDefaulted env.overrides) := by
  simp only [GetConnectionInfo, finishConnectionSettings, hfs]

theorem getConnectionInfo_malformed (env : ConfigEnv)
    (hfs : env.fs (resolvedConfigPath env) = ReadResult.ok ParseOutcome.malformed) :
    GetConnectionInfo env =
      if (resolvedConfigPath env != env.defaultConfigPath)
          || insufficientConnectionInfo (hostDefaulted env.overrides)
      then Except.error (ResolveError.configParse (resolvedConfigPath env))
      else Except.ok (hostDefaulted env.overrides) := by
  simp only [GetConnectionInfo, finishConnectionSettings, hfs]

theorem getConnectionInfo_parsed (env : ConfigEnv) (s : CLIConfig)
    (hfs : env.fs (resolvedConfigPath env) = ReadResult.ok (ParseOutcome.parsed s)) :
    GetConnectionInfo env = Except.ok (mergeFile (hostDefaulted env.overrides) s) := by
  simp only [GetConnectionInfo, finishConnectionSettings, hfs]

/-! ### Claims C1 - C3 -/

/-- Environment for C1: default config path in use, the file absent there,
no override flags supplied. -/
def c1Env : ConfigEnv :=
  { configPathFlag := ""
    defaultConfigPath := "/home/user/.local/share/rancher-desktop/rd-engine.json"
    overrides := { user := "", password := "", host := "", port := "" }
    fs := fun _ => ReadResult.err ReadErr.notExist }

/-- C1: with the default config path, the file absent, and no overrides,
GetConnectionInfo fails — but with the raw os.ReadFile not-exist error
(a generic file-not-found I/O error carrying the path), not with
ErrMainProcessNotRunning, which is declared (config.go:60) yet never
produced on this path. This evaluates the code at the failing input of the
C1 code bug. -/
theorem c1_default_absent_yields_read_error_not_ErrMainProcessNotRunning :
    GetConnectionInfo c1Env =
      Except.error (ResolveError.readFile
        "/home/user/.local/share/rancher-desktop/rd-engine.json" ReadErr.notExist) ∧
    ResolveError.readFile
        "/home/user/.local/share/rancher-desktop/rd-engine.json" ReadErr.notExist ≠
      ErrMainProcessNotRunning := by
  exact ⟨rfl, by decide⟩

/-- Environment for the C2 counterexample: default path, malformed file,
overrides supplying user, password and port. -/
def c2Env : ConfigEnv :=
  { configPathFlag := ""
    defaultConfigPath := "/dflt/rd-engine.json"
    overrides := { user := "u", password := "pw", host := "", port := "4444" }
    fs := fun _ => ReadResult.ok ParseOutcome.malformed }

/-- C2 counterexample: a config file with invalid JSON at the default path,
with overrides supplying user, password and port, does NOT fail resolution:
GetConnectionInfo succeeds, the parse error having been deferred and then
suppressed by the sufficiency check. -/
theorem c2_counterexample_malformed_default_with_full_overrides_succeeds :
    GetConnectionInfo c2Env =
      Except.ok { user := "u", password := "pw", host := "127.0.0.1", port := "4444" } := rfl

/-- C2 (amended): a config file with invalid JSON fails resolution with the
parse error (which carries the path) whenever the file is at a non-default
path, or at the default path whenever the overrides leave at least one of
user, password, port empty. -/
theorem c2_malformed_config_fails_unless_default_path_with_full_overrides
    (env : ConfigEnv)
    (hm : env.fs (resolvedConfigPath env) = ReadResult.ok ParseOutcome.malformed)
    (h : resolvedConfigPath env ≠ env.defaultConfigPath ∨
         insufficientConnectionInfo env.overrides = true) :
    GetConnectionInfo env =
      Except.error (ResolveError.configParse (resolvedConfigPath env)) := by
  rw [getConnectionInfo_malformed env hm]
  rcases h with h | h
  · simp [bne_iff_ne, h]
  · simp [insufficient_hostDefaulted, h]

/-- Environment for the C2 witness: malformed file at a user-specified path,
overrides supplying everything. -/
def c2wEnv : ConfigEnv :=
  { configPathFlag := "/custom/cfg.json"
    defaultConfigPath := "/dflt/rd-engine.json"
    overrides := { user := "u", password := "pw", host := "h", port := "80" }
    fs := fun _ => ReadResult.ok ParseOutcome.malformed }

theorem c2_malformed_witness :
    GetConnectionInfo c2wEnv =
      Except.error (ResolveError.configParse "/custom/cfg.json") := by
  have h := c2_malformed_config_fails_unless_default_path_with_full_overrides
    c2wEnv rfl (Or.inl (by decide))
  simpa [resolvedConfigPath, c2wEnv] using h

/-- Environment for the C3 counterexample: default path, file decoding to
user "alice", password "pw" and port zero (the absent sentinel), and no
overrides. -/
def c3Env : ConfigEnv :=
  { configPathFlag := ""
    defaultConfigPath := "/dflt/rd-engine.json"
    overrides := { user := "", password := "", host := "", port := "" }
    fs := fun _ => ReadResult.ok (ParseOutcome.parsed
      { user := "alice", password := "pw", port := 0 }) }

/-- C3 counterexample: when the file port is the zero sentinel and no port
override is given, the merge does NOT leave the port unset: it stores the
string "0" (strconv.Itoa applied unconditionally), a non-empty value, so
resolution succeeds with port "0". -/
theorem c3_counterexample_zero_port_becomes_string_zero :
    GetConnectionInfo c3Env =
      Except.ok { user := "alice", password := "pw", host := "127.0.0.1", port := "0" } ∧
    ({ user := "alice", password := "pw", host := "127.0.0.1", port := "0" } :
        ConnectionInfo).port ≠ "" := by
  exact ⟨rfl, by decide⟩

/-- C3 (amended): for every parsed config file and every field not set by an
override, user and password take the value decoded from the file verbatim
(the empty string when the key is absent, which is indistinguishable from
leaving the field unset), while port always takes the decimal rendering of
the decoded integer — including "0" when the decoded port is zero, so a
zero port yields a set field rather than an unset one. Fields with a
non-empty override are untouched, and host defaults to 127.0.0.1. -/
theorem c3_merge_takes_file_values_fieldwise (env : ConfigEnv) (s : CLIConfig)
    (hfs : env.fs (resolvedConfigPath env) = ReadResult.ok (ParseOutcome.parsed s)) :
    GetConnectionInfo env = Except.ok
      { user := if env.overrides.user = "" then s.user else env.overrides.user
        password := if env.overrides.password = "" then s.password else env.overrides.password
        host := if env.overrides.host = "" then "127.0.0.1" else env.overrides.host
        port := if env.overrides.port = "" then itoa s.port else env.overrides.port } := by
  rw [getConnectionInfo_parsed env s hfs, mergeFile_eq]
  simp [hostDefaulted_user, hostDefaulted_password, hostDefaulted_port, hostDefaulted_host]

theorem c3_merge_witness :
    GetConnectionInfo c3Env =
      Except.ok { user := "alice", password := "pw", host := "127.0.0.1", port := "0" } := by
  have h := c3_merge_takes_file_values_fieldwise c3Env
    { user := "alice", password := "pw", port := 0 } rfl
  simpa [c3Env, itoa] using h

/-! ### Claims C4 - C6 -/

/-- C4: whenever GetConnectionInfo returns a descriptor, every field among
host, port, user and password that was supplied as a non-empty override
keeps exactly the override value, whatever the config file contained —
each field independently, hence also in every combination. -/
theorem c4_overrides_win (env : ConfigEnv) (cs : ConnectionInfo)
    (hok : GetConnectionInfo env = Except.ok cs) :
    (env.overrides.host ≠ "" → cs.host = env.overrides.host) ∧
    (env.overrides.port ≠ "" → cs.port = env.overrides.port) ∧
    (env.overrides.user ≠ "" → cs.user = env.overrides.user) ∧
    (env.overrides.password ≠ "" → cs.password = env.overrides.password) := by
  have fromHostDefaulted :
      hostDefaulted env.overrides = cs →
      (env.overrides.host ≠ "" → cs.host = env.overrides.host) ∧
      (env.overrides.port ≠ "" → cs.port = env.overrides.port) ∧
      (env.overrides.user ≠ "" → cs.user = env.overrides.user) ∧
      (env.overrides.password ≠ "" → cs.password = env.overrides.password) := by
    intro hcs
    refine ⟨fun hh => ?_, fun _ => ?_, fun _ => ?_, fun _ => ?_⟩
    · rw [← hcs, hostDefaulted_host, if_neg hh]
    · rw [← hcs, hostDefaulted_port]
    · rw [← hcs, hostDefaulted_user]
    · rw [← hcs, hostDefaulted_password]
  rcases hfs : env.fs (resolvedConfigPath env) with e | c
  · rw [getConnectionInfo_err env e hfs] at hok
    split at hok
    · exact absurd hok (by simp)
    · exact fromHostDefaulted (by simpa using hok)
  · rcases c with _ | s
    · rw [getConnectionInfo_malformed env hfs] at hok
      split at hok
      · exact absurd hok (by simp)
      · exact fromHostDefaulted (by simpa using hok)
    · rw [getConnectionInfo_parsed env s hfs] at hok
      replace hok : mergeFile (hostDefaulted env.overrides) s = cs := by simpa using hok
      rw [mergeFile_eq] at hok
      refine ⟨fun hh => ?_, fun hp => ?_, fun hu => ?_, fun hw => ?_⟩
      · rw [← hok]; rw [hostDefaulted_host, if_neg hh]
      · rw [← hok]; simp [hostDefaulted_port, hp]
      · rw [← hok]; simp [hostDefaulted_user, hu]
      · rw [← hok]; simp [hostDefaulted_password, hw]

/-- Environment for the C4 witness: all four overrides set, the file
decoding to different values for every field. -/
def c4Env : ConfigEnv :=
  { configPathFlag := ""
    defaultConfigPath := "/dflt/rd-engine.json"
    overrides := { user := "ovU", password := "ovP", host := "10.0.0.5", port := "9999" }
    fs := fun _ => ReadResult.ok (ParseOutcome.parsed
      { user := "fileU", password := "fileP", port := 1234 }) }

theorem c4_overrides_win_witness :
    ({ user := "ovU", password := "ovP", host := "10.0.0.5", port := "9999" } :
        ConnectionInfo).host = c4Env.overrides.host ∧
    ({ user := "ovU", password := "ovP", host := "10.0.0.5", port := "9999" } :
        ConnectionInfo).port = c4Env.overrides.port ∧
    ({ user := "ovU", password := "ovP", host := "10.0.0.5", port := "9999" } :
        ConnectionInfo).user = c4Env.overrides.user ∧
    ({ user := "ovU", password := "ovP", host := "10.0.0.5", port := "9999" } :
        ConnectionInfo).password = c4Env.overrides.password := by
  have h := c4_overrides_win c4Env
    { user := "ovU", password := "ovP", host := "10.0.0.5", port := "9999" } rfl
  exact ⟨h.1 (by decide), h.2.1 (by decide), h.2.2.1 (by decide), h.2.2.2 (by decide)⟩

/-- C5: with no flags given (default path in use, no overrides) and a
well-formed config file whose three fields are all set — non-empty user and
password, non-zero port — GetConnectionInfo succeeds and returns exactly
the user and password from the file, the port rendered in decimal, and
host 127.0.0.1. -/
theorem c5_full_file_no_overrides (dp u p : String) (pt : Int)
    (fs : String → ReadResult)
    (hfile : fs dp = ReadResult.ok (ParseOutcome.parsed { user := u, password := p, port := pt }))
    (_hu : u ≠ "") (_hp : p ≠ "") (_hpt : pt ≠ 0) :
    GetConnectionInfo
        { configPathFlag := ""
          defaultConfigPath := dp
          overrides := { user := "", password := "", host := "", port := "" }
          fs := fs } =
      Except.ok { user := u, password := p, host := "127.0.0.1", port := itoa pt } := by
  have hfs : ({ configPathFlag := ""
                defaultConfigPath := dp
                overrides := { user := "", password := "", host := "", port := "" }
                fs := fs } : ConfigEnv).fs
      (resolvedConfigPath
        { configPathFlag := ""
          defaultConfigPath := dp
          overrides := { user := "", password := "", host := "", port := "" }
          fs := fs }) =
      ReadResult.ok (ParseOutcome.parsed { user := u, password := p, port := pt }) := by
    simpa [resolvedConfigPath] using hfile
  rw [getConnectionInfo_parsed _ _ hfs, mergeFile_eq]
  simp [hostDefaulted]

theorem c5_full_file_witness :
    ("admin" : String) ≠ "" ∧ ("secret" : String) ≠ "" ∧ (6107 : Int) ≠ 0 ∧
    GetConnectionInfo
        { configPathFlag := ""
          defaultConfigPath := "/dflt/rd-engine.json"
          overrides := { user := "", password := "", host := "", port := "" }
          fs := fun _ => ReadResult.ok (ParseOutcome.parsed
            { user := "admin", password := "secret", port := 6107 }) } =
      Except.ok { user := "admin", password := "secret", host := "127.0.0.1", port := "6107" } := by
  refine ⟨by decide, by decide, by decide, ?_⟩
  have h := c5_full_file_no_overrides "/dflt/rd-engine.json" "admin" "secret" 6107
    (fun _ => ReadResult.ok (ParseOutcome.parsed
      { user := "admin", password := "secret", port := 6107 }))
    rfl (by decide) (by decide) (by decide)
  simpa [itoa] using h

/-- C6: when a non-empty config path different from the default one is
given and reading it fails for any reason (the file absent included),
GetConnectionInfo fails with the read error, which carries that path —
whatever the override flags supply. -/
theorem c6_user_path_unreadable_fails_immediately (env : ConfigEnv) (e : ReadErr)
    (hflag : env.configPathFlag ≠ "")
    (hnd : env.configPathFlag ≠ env.defaultConfigPath)
    (hfs : env.fs env.configPathFlag = ReadResult.err e) :
    GetConnectionInfo env =
      Except.error (ResolveError.readFile env.configPathFlag e) := by
  have hres : resolvedConfigPath env = env.configPathFlag := by
    simp [resolvedConfigPath, hflag]
  rw [getConnectionInfo_err env e (by rw [hres]; exact hfs)]
  rw [hres]
  simp [bne_iff_ne, hnd]

/-- Environment for the C6 witness: user-specified path absent while the
overrides supply all four fields. -/
def c6Env : ConfigEnv :=
  { configPathFlag := "/custom/cfg.json"
    defaultConfigPath := "/dflt/rd-engine.json"
    overrides := { user := "u", password := "pw", host := "h", port := "80" }
    fs := fun _ => ReadResult.err ReadErr.notExist }

theorem c6_user_path_witness :
    GetConnectionInfo c6Env =
      Except.error (ResolveError.readFile "/custom/cfg.json" ReadErr.notExist) := by
  exact c6_user_path_unreadable_fails_immediately c6Env ReadErr.notExist
    (by decide) (by decide) rfl

/-! ### utils DevMode (rdctl utils package): embedding

Absolute filesystem paths are modelled as their lists of components ordered
innermost first, so that / is [], /usr/bin is ["bin", "usr"];
filepath.Dir is List.tail, filepath.Base is the head, and the loop exit
test strings.HasSuffix(parentPath, separator) holds exactly at the root. -/

/-- One entry returned by os.ReadDir: its name and whether its type is a
directory. -/
structure DirEntry where
  name : String
  isDir : Bool
  deriving Repr, DecidableEq

/-- The errors DevMode can return: os.Executable failing,
filepath.EvalSymlinks failing on the executable path, or os.ReadDir
failing on an ancestor directory. -/
inductive DevModeError where
  | executableFailed
  | evalSymlinksFailed (path : List String)
  | readDirFailed (path : List String)
  deriving Repr, DecidableEq

/-- filepath.Base of a non-root absolute path: its innermost component. -/
def base (p : List String) : String := p.headD ""

/-- The scan of one directory listing for an entry named ".git" whose type
is a directory (part_000:215-221). -/
def hasGitDir (entries : List DirEntry) : Bool :=
  entries.any fun e => e.name == ".git" && e.isDir

/-- The ancestor walk of DevMode (part_000:195-222), entered at the parent
directory of the resolved executable path. At the root the loop breaks and
DevMode falls through to return false; at a directory named "dist" it
returns false; otherwise the directory is listed (an error propagating)
and an entry ".git" of directory type returns true, else the walk moves to
the next ancestor toward the root. -/
def devModeWalk (readDir : List String → Option (List DirEntry)) :
    List String → Except DevModeError Bool
  | [] => Except.ok false
  | p@(b :: rest) =>
    if b = "dist" then Except.ok false
    else
      match readDir p with
      | none => Except.error (DevModeError.readDirFailed p)
      | some entries =>
          if hasGitDir entries then Except.ok true
          else devModeWalk readDir rest

/-- The process-wide inputs DevMode reads: the NODE_ENV environment
variable (os.LookupEnv), the os.Executable result, filepath.EvalSymlinks
and os.ReadDir. The devMode memoization cell is nil on a first call and is
not modelled. -/
structure DevModeEnv where
  nodeEnv : Option String
  executable : Except Unit (List String)
  evalSymlinks : List String → Option (List String)
  readDir : List String → Option (List DirEntry)

/-- DevMode (part_000:174-225): NODE_ENV=development returns true at once;
otherwise the executable path is obtained, symlink-resolved, and its
ancestors are walked. -/
def DevMode (env : DevModeEnv) : Except DevModeError Bool :=
  if env.nodeEnv = some "development" then Except.ok true
  else
    match env.executable with
    | Except.error _ => Except.error DevModeError.executableFailed
    | Except.ok rdctlSymlinkPath =>
        match env.evalSymlinks rdctlSymlinkPath with
        | none => Except.error (DevModeError.evalSymlinksFailed rdctlSymlinkPath)
        | some rdctlPath => devModeWalk env.readDir rdctlPath.tail

/-! ### Claim C7 -/

/-- C7: DevMode returns true at once when NODE_ENV=development, whatever
the filesystem probes would do (even if every one of them fails);
otherwise it walks the ancestors of the symlink-resolved executable path
from the nearest one toward the root, and the walk returns false upon
reaching the root, returns false at an ancestor named "dist" (before
listing it), returns true at an ancestor containing a directory entry
".git" of directory type, and otherwise steps to the next ancestor toward
the root. -/
theorem c7_devmode_marker_and_walk :
    (∀ env : DevModeEnv, env.nodeEnv = some "development" → DevMode env = Except.ok true) ∧
    (∀ (env : DevModeEnv) (sym r : List String),
        env.nodeEnv ≠ some "development" →
        env.executable = Except.ok sym →
        env.evalSymlinks sym = some r →
        DevMode env = devModeWalk env.readDir r.tail) ∧
    (∀ rd, devModeWalk rd [] = Except.ok false) ∧
    (∀ rd (p : List String), p ≠ [] → base p = "dist" →
        devModeWalk rd p = Except.ok false) ∧
    (∀ rd (p : List String) es, p ≠ [] → base p ≠ "dist" → rd p = some es →
        hasGitDir es = true → devModeWalk rd p = Except.ok true) ∧
    (∀ rd (p : List String) es, p ≠ [] → base p ≠ "dist" → rd p = some es →
        hasGitDir es = false → devModeWalk rd p = devModeWalk rd p.tail) := by
  refine ⟨?_, ?_, ?_, ?_, ?_, ?_⟩
  · intro env h
    simp [DevMode, h]
  · intro env sym r hne hexe hsym
    simp only [DevMode, if_neg hne, hexe, hsym]
  · intro rd
    rfl
  · rintro rd (_ | ⟨b, rest⟩) hne hb
    · exact absurd rfl hne
    · simp only [base, List.headD] at hb
      simp [devModeWalk, hb]
  · rintro rd (_ | ⟨b, rest⟩) es hne hb hrd hgit
    · exact absurd rfl hne
    · simp only [base, List.headD] at hb
      simp [devModeWalk, hb, hrd, hgit]
  · rintro rd (_ | ⟨b, rest⟩) es hne hb hrd hgit
    · exact absurd rfl hne
    · simp only [base, List.headD] at hb
      simp [devModeWalk, hb, hrd, hgit]

/-- Environment for the first C7 witness conjunct: NODE_ENV=development
with every filesystem probe failing. -/
def c7DevEnv : DevModeEnv :=
  { nodeEnv := some "development"
    executable := Except.error ()
    evalSymlinks := fun _ => none
    readDir := fun _ => none }

/-- Directory listings for the C7 witness walk: the executable is
/home/me/proj/resources/rdctl, /home/me/proj holds a .git directory, and
the intermediate directory holds nothing of note. -/
def c7ReadDir : List String → Option (List DirEntry) :=
  fun p =>
    if p = ["proj", "me", "home"] then
      some [{ name := ".git", isDir := true }, { name := "src", isDir := true }]
    else
      some [{ name := "README.md", isDir := false }]

/-- Environment for the walking C7 witness conjuncts. -/
def c7WalkEnv : DevModeEnv :=
  { nodeEnv := none
    executable := Except.ok ["rdctl", "resources", "proj", "me", "home"]
    evalSymlinks := fun p => some p
    readDir := c7ReadDir }

theorem c7_devmode_witness :
    DevMode c7DevEnv = Except.ok true ∧
    DevMode c7WalkEnv = devModeWalk c7ReadDir ["resources", "proj", "me", "home"] ∧
    devModeWalk c7ReadDir [] = Except.ok false ∧
    devModeWalk c7ReadDir ["dist", "opt"] = Except.ok false ∧
    devModeWalk c7ReadDir ["proj", "me", "home"] = Except.ok true ∧
    devModeWalk c7ReadDir ["resources", "proj", "me", "home"] =
      devModeWalk c7ReadDir ["proj", "me", "home"] := by
  obtain ⟨h1, h2, h3, h4, h5, h6⟩ := c7_devmode_marker_and_walk
  refine ⟨h1 c7DevEnv rfl, ?_, h3 c7ReadDir, ?_, ?_, ?_⟩
  · exact h2 c7WalkEnv ["rdctl", "resources", "proj", "me", "home"]
      ["rdctl", "resources", "proj", "me", "home"] (by decide) rfl rfl
  · exact h4 c7ReadDir ["dist", "opt"] (by decide) (by decide)
  · exact h5 c7ReadDir ["proj", "me", "home"]
      [{ name := ".git", isDir := true }, { name := "src", isDir := true }]
      (by decide) (by decide) (by simp [c7ReadDir]) (by decide)
  · exact h6 c7ReadDir ["resources", "proj", "me", "home"]
      [{ name := "README.md", isDir := false }]
      (by decide) (by decide) (by simp [c7ReadDir]) (by decide)

/-! ### TypeScript paths module: embedding -/

/-- The partial paths object decoded from the stdout of `rdctl paths`, or
built by the fallback (TS Partial of the Paths interface): each field may
be absent. -/
structure PathsData where
  appHome : Option String := none
  altAppHome : Option String := none
  config : Option String := none
  logs : Option String := none
  cache : Option String := none
  resources : Option String := none
  lima : Option String := none
  integration : Option String := none
  oldIntegration : Option String := none
  deploymentProfileSystem : Option String := none
  deploymentProfileUser : Option String := none
  extensionRoot : Option String := none
  wslDistro : Option String := none
  wslDistroData : Option String := none
  deriving Repr, DecidableEq

/-- UnixPaths (part_000:41-66): the data properties, each initialized to
the empty string and overwritten by Object.assign from the paths data. -/
structure UnixPaths where
  appHome : String
  altAppHome : String
  config : String
  logs : String
  cache : String
  resources : String
  lima : String
  oldIntegration : String
  integration : String
  deploymentProfileSystem : String
  deploymentProfileUser : String
  extensionRoot : String
  deriving Repr, DecidableEq

/-- The UnixPaths constructor (part_000:55-57). -/
def UnixPaths.fromData (d : PathsData) : UnixPaths :=
  { appHome := d.appHome.getD ""
    altAppHome := d.altAppHome.getD ""
    config := d.config.getD ""
    logs := d.logs.getD ""
    cache := d.cache.getD ""
    resources := d.resources.getD ""
    lima := d.lima.getD ""
    oldIntegration := d.oldIntegration.getD ""
    integration := d.integration.getD ""
    deploymentProfileSystem := d.deploymentProfileSystem.getD ""
    deploymentProfileUser := d.deploymentProfileUser.getD ""
    extensionRoot := d.extensionRoot.getD "" }

/-- The UnixPaths wslDistro getter (part_000:59-61): accessing it throws. -/
def UnixPaths.wslDistro (_ : UnixPaths) : Except String String :=
  Except.error "wslDistro not available for Unix"

/-- The UnixPaths wslDistroData getter (part_000:63-65). -/
def UnixPaths.wslDistroData (_ : UnixPaths) : Except String String :=
  Except.error "wslDistroData not available for Unix"

/-- WindowsPaths (part_000:68-102): the data properties. -/
structure WindowsPaths where
  appHome : String
  altAppHome : String
  config : String
  logs : String
  cache : String
  resources : String
  extensionRoot : String
  wslDistro : String
  wslDistroData : String
  deriving Repr, DecidableEq

/-- The WindowsPaths constructor (part_000:79-81). -/
def WindowsPaths.fromData (d : PathsData) : WindowsPaths :=
  { appHome := d.appHome.getD ""
    altAppHome := d.altAppHome.getD ""
    config := d.config.getD ""
    logs := d.logs.getD ""
    cache := d.cache.getD ""
    resources := d.resources.getD ""
    extensionRoot := d.extensionRoot.getD ""
    wslDistro := d.wslDistro.getD ""
    wslDistroData := d.wslDistroData.getD "" }

/-- The WindowsPaths lima getter (part_000:83-85): accessing it throws. -/
def WindowsPaths.lima (_ : WindowsPaths) : Except String String :=
  Except.error "lima not available for Windows"

/-- The WindowsPaths oldIntegration getter (part_000:87-89). -/
def WindowsPaths.oldIntegration (_ : WindowsPaths) : Except String String :=
  Except.error "Internal error: oldIntegration path not available for Windows"

/-- The WindowsPaths integration getter (part_000:91-93). -/
def WindowsPaths.integration (_ : WindowsPaths) : Except String String :=
  Except.error "Internal error: integration path not available for Windows"

/-- The WindowsPaths deploymentProfileSystem getter (part_000:95-97). -/
def WindowsPaths.deploymentProfileSystem (_ : WindowsPaths) : Except String String :=
  Except.error "Internal error: Windows profiles will be read from Registry"

/-- The WindowsPaths deploymentProfileUser getter (part_000:99-101). -/
def WindowsPaths.deploymentProfileUser (_ : WindowsPaths) : Except String String :=
  Except.error "Internal error: Windows profiles will be read from Registry"

/-- The value getPaths returns: one of the two Paths implementations. -/
inductive PathSet where
  | unix (paths : UnixPaths)
  | windows (paths : WindowsPaths)
  deriving Repr, DecidableEq

/-- Property access through the Paths interface: wslDistro either throws
(Unix getter) or reads the data property (Windows). -/
def PathSet.wslDistro : PathSet → Except String String
  | PathSet.unix u => u.wslDistro
  | PathSet.windows w => Except.ok w.wslDistro

/-- Property access through the Paths interface: wslDistroData. -/
def PathSet.wslDistroData : PathSet → Except String String
  | PathSet.unix u => u.wslDistroData
  | PathSet.windows w => Except.ok w.wslDistroData

/-- Property access through the Paths interface: lima. -/
def PathSet.lima : PathSet → Except String String
  | PathSet.unix u => Except.ok u.lima
  | PathSet.windows w => w.lima

/-- Property access through the Paths interface: integration. -/
def PathSet.integration : PathSet → Except String String
  | PathSet.unix u => Except.ok u.integration
  | PathSet.windows w => w.integration

/-- Property access through the Paths interface: oldIntegration. -/
def PathSet.oldIntegration : PathSet → Except String String
  | PathSet.unix u => Except.ok u.oldIntegration
  | PathSet.windows w => w.oldIntegration

/-- Property access through the Paths interface: deploymentProfileSystem. -/
def PathSet.deploymentProfileSystem : PathSet → Except String String
  | PathSet.unix u => Except.ok u.deploymentProfileSystem
  | PathSet.windows w => w.deploymentProfileSystem

/-- Property access through the Paths interface: deploymentProfileUser. -/
def PathSet.deploymentProfileUser : PathSet → Except String String
  | PathSet.unix u => Except.ok u.deploymentProfileUser
  | PathSet.windows w => w.deploymentProfileUser

/-- The error thrown for a platform outside the two known buckets
(part_000:147). -/
inductive GetPathsError where
  | unsupportedPlatform (platform : String)
  deriving Repr, DecidableEq

/-- path.join of two segments with the separator. -/
def pathJoin (a b : String) : String := a ++ "/" ++ b

/-- The fallback paths data built when rdctl is missing, old, or fails
(part_000:133-136). -/
def fallbackPathsData (cwd : String) : PathsData :=
  { resources := some (pathJoin cwd "resources")
    logs := some (pathJoin cwd "script_logs") }

/-- The inputs getPaths reads: process.platform, process.cwd(), and the
outcome of the `rdctl paths` invocation — some decoded paths data when the
subprocess exited zero and its stdout parsed, none when anything in the
try block threw. -/
structure GetPathsEnv where
  platform : String
  cwd : String
  helperOutcome : Option PathsData

/-- The try/catch of part_000:122-137: the decoded helper output, or the
fallback data when the helper failed. -/
def effectivePathsData (env : GetPathsEnv) : PathsData :=
  match env.helperOutcome with
  | some d => d
  | none => fallbackPathsData env.cwd

/-- getPaths (part_000:119-149): build the paths data, then switch on
process.platform. -/
def getPaths (env : GetPathsEnv) : Except GetPathsError PathSet :=
  if env.platform = "darwin" then
    Except.ok (PathSet.unix (UnixPaths.fromData (effectivePathsData env)))
  else if env.platform = "linux" then
    Except.ok (PathSet.unix (UnixPaths.fromData (effectivePathsData env)))
  else if env.platform = "win32" then
    Except.ok (PathSet.windows (WindowsPaths.fromData (effectivePathsData env)))
  else
    Except.error (GetPathsError.unsupportedPlatform env.platform)

/-! ### Claims C8 - C9 -/

/-- C8: getPaths matches the platform identifier against exactly two
buckets — darwin and linux produce the Unix variant, win32 produces the
Windows variant — and any other identifier produces the
unsupported-platform error and no PathSet. -/
theorem c8_getpaths_platform_buckets (env : GetPathsEnv) :
    ((env.platform = "darwin" ∨ env.platform = "linux") →
        ∃ u, getPaths env = Except.ok (PathSet.unix u)) ∧
    (env.platform = "win32" →
        ∃ w, getPaths env = Except.ok (PathSet.windows w)) ∧
    (env.platform ≠ "darwin" → env.platform ≠ "linux" → env.platform ≠ "win32" →
        getPaths env = Except.error (GetPathsError.unsupportedPlatform env.platform)) := by
  refine ⟨?_, ?_, ?_⟩
  · rintro (h | h) <;>
      exact ⟨UnixPaths.fromData (effectivePathsData env), by simp [getPaths, h]⟩
  · intro h
    refine ⟨WindowsPaths.fromData (effectivePathsData env), ?_⟩
    have hd : env.platform ≠ "darwin" := by rw [h]; decide
    have hl : env.platform ≠ "linux" := by rw [h]; decide
    simp [getPaths, hd, hl, h]
  · intro hd hl hw
    simp [getPaths, hd, hl, hw]

/-- Helper environments for the C8 and C9 witnesses. -/
def pathsEnvDarwin : GetPathsEnv :=
  { platform := "darwin", cwd := "/work", helperOutcome := none }

def pathsEnvLinux : GetPathsEnv :=
  { platform := "linux", cwd := "/work"
    helperOutcome := some { appHome := some "/home/me/.rd" } }

def pathsEnvWin : GetPathsEnv :=
  { platform := "win32", cwd := "C:/work", helperOutcome := none }

def pathsEnvOther : GetPathsEnv :=
  { platform := "sunos", cwd := "/work", helperOutcome := none }

theorem c8_getpaths_witness :
    (∃ u, getPaths pathsEnvDarwin = Except.ok (PathSet.unix u)) ∧
    (∃ w, getPaths pathsEnvWin = Except.ok (PathSet.windows w)) ∧
    getPaths pathsEnvOther =
      Except.error (GetPathsError.unsupportedPlatform "sunos") := by
  refine ⟨(c8_getpaths_platform_buckets pathsEnvDarwin).1 (Or.inl rfl),
    (c8_getpaths_platform_buckets pathsEnvWin).2.1 rfl,
    (c8_getpaths_platform_buckets pathsEnvOther).2.2 (by decide) (by decide) (by decide)⟩

/-- C9: every PathSet getPaths produces for darwin or linux raises the
distinct not-available errors on the wslDistro and wslDistroData
properties, and every PathSet produced for win32 raises the corresponding
errors on the lima, oldIntegration, integration, deploymentProfileSystem
and deploymentProfileUser properties — never yielding a string, empty or
otherwise. -/
theorem c9_pathset_unavailable_fields (env : GetPathsEnv) (ps : PathSet) :
    ((env.platform = "darwin" ∨ env.platform = "linux") →
        getPaths env = Except.ok ps →
        ps.wslDistro = Except.error "wslDistro not available for Unix" ∧
        ps.wslDistroData = Except.error "wslDistroData not available for Unix") ∧
    (env.platform = "win32" →
        getPaths env = Except.ok ps →
        ps.lima = Except.error "lima not available for Windows" ∧
        ps.oldIntegration =
          Except.error "Internal error: oldIntegration path not available for Windows" ∧
        ps.integration =
          Except.error "Internal error: integration path not available for Windows" ∧
        ps.deploymentProfileSystem =
          Except.error "Internal error: Windows profiles will be read from Registry" ∧
        ps.deploymentProfileUser =
          Except.error "Internal error: Windows profiles will be read from Registry") := by
  constructor
  · rintro (h | h) hok <;>
    · simp only [getPaths, h] at hok
      simp only [reduceIte] at hok
      replace hok : PathSet.unix (UnixPaths.fromData (effectivePathsData env)) = ps := by
        simpa using hok
      subst hok
      exact ⟨rfl, rfl⟩
  · intro h hok
    have hd : env.platform ≠ "darwin" := by rw [h]; decide
    have hl : env.platform ≠ "linux" := by rw [h]; decide
    simp only [getPaths, hd, hl, h, if_neg, if_pos, reduceIte] at hok
    replace hok : PathSet.windows (WindowsPaths.fromData (effectivePathsData env)) = ps := by
      simpa using hok
    subst hok
    exact ⟨rfl, rfl, rfl, rfl, rfl⟩

theorem c9_pathset_witness :
    (PathSet.unix (UnixPaths.fromData (effectivePathsData pathsEnvLinux))).wslDistro =
      Except.error "wslDistro not available for Unix" ∧
    (PathSet.unix (UnixPaths.fromData (effectivePathsData pathsEnvLinux))).wslDistroData =
      Except.error "wslDistroData not available for Unix" ∧
    (PathSet.windows (WindowsPaths.fromData (effectivePathsData pathsEnvWin))).lima =
      Except.error "lima not available for Windows" := by
  have hu := (c9_pathset_unavailable_fields pathsEnvLinux
    (PathSet.unix (UnixPaths.fromData (effectivePathsData pathsEnvLinux)))).1
    (Or.inr rfl) (by simp [getPaths, pathsEnvLinux])
  have hw := (c9_pathset_unavailable_fields pathsEnvWin
    (PathSet.windows (WindowsPaths.fromData (effectivePathsData pathsEnvWin)))).2
    rfl (by simp [getPaths, pathsEnvWin])
  exact ⟨hu.1, hu.2, hw.1⟩

/-! ### Claim C10 : isWSLDistro -/

/-- The outcome of os.Lstat("/bin/wslpath") (config.go:212): success with
the file mode recording whether the path is a symbolic link, an error for
which os.IsNotExist holds, or any other error (permission denied on a
parent directory, for instance) — in which case the returned FileInfo
interface value is nil. -/
inductive LstatResult where
  | ok (isSymlink : Bool)
  | errNotExist
  | errOther
  deriving Repr, DecidableEq

/-- isWSLDistro (config.go:211-217). On errNotExist it returns false; on
success it tests the symlink mode bit; on any other error the code falls
through to fi.Mode() with fi the nil FileInfo, a runtime panic, modelled
as none. -/
def isWSLDistro : LstatResult → Option Bool
  | LstatResult.errNotExist => some false
  | LstatResult.ok sym => some sym
  | LstatResult.errOther => none

/-- C10: isWSLDistro is NOT total over the Lstat outcomes — on an error
other than not-exist it faults (nil FileInfo dereference) instead of
returning a boolean; on the outcomes it does handle, it returns false for
a missing path and returns true exactly when the path exists as a symbolic
link. This evaluates the code at the failing input of the C10 code bug. -/
theorem c10_iswsldistro_faults_on_other_error :
    isWSLDistro LstatResult.errOther = none ∧
    isWSLDistro LstatResult.errNotExist = some false ∧
    isWSLDistro (LstatResult.ok true) = some true ∧
    isWSLDistro (LstatResult.ok false) = some false := by
  exact ⟨rfl, rfl, rfl, rfl⟩

end RancherDesktop
